import Mathlib

/-!
Verification of the receipt-validation engine of this repository
(`src/json_receipt/json_validator.py` and `src/xml_receipt/xml_validator.py`)
against its natural-language specification.

The Python code is shallowly embedded: Python/JSON values become the
inductive type `JVal`, Python floats are modelled as exact fractions
(`PyFloat`; every float the receipts carry is a short decimal, and all
comparisons in the source are against the absolute epsilon 0.01, which
the spec states in real arithmetic — `pfLtB_iff_toRat` ties the
embedded comparison to the rational ordering), the mutable
`self.errors` / `self.warnings` lists become a writer-style monad `EM`
whose emissions are append-only, and a Python exception that escapes a
function is an `Except.error`.  External collaborators (the `jsonschema`
library, `datetime.now()`) are passed in as explicit parameters, as the
spec's §5/§6 prescribe.
-/

set_option autoImplicit false
set_option maxRecDepth 4000

universe u

/-- A Python float, modelled as an exact fraction (numerator over a
positive denominator, not necessarily reduced).  Every float the
validators manipulate is a short decimal, which this represents
exactly; all the source's float operations (epsilon comparisons,
arithmetic, `str()` rendering) are value-based, so the representative
chosen does not matter.  A plain fraction is used instead of `Rat`
because `Rat`'s normalizing arithmetic does not reduce definitionally
in the kernel. -/
structure PyFloat where
  num : Int
  den : Nat
deriving DecidableEq

/-- The rational value of a `PyFloat`. -/
def PyFloat.toRat (f : PyFloat) : Rat := (f.num : Rat) / (f.den : Rat)

/-- The float of an integer. -/
def pfOfInt (n : Int) : PyFloat := ⟨n, 1⟩

/-- Float addition (`a/b + c/d = (ad + cb)/(bd)`). -/
def pfAdd (a b : PyFloat) : PyFloat :=
  ⟨a.num * (b.den : Int) + b.num * (a.den : Int), a.den * b.den⟩

/-- Float subtraction. -/
def pfSub (a b : PyFloat) : PyFloat :=
  ⟨a.num * (b.den : Int) - b.num * (a.den : Int), a.den * b.den⟩

/-- Float multiplication. -/
def pfMul (a b : PyFloat) : PyFloat := ⟨a.num * b.num, a.den * b.den⟩

/-- `abs` of a float. -/
def pfAbs (a : PyFloat) : PyFloat := ⟨|a.num|, a.den⟩

/-- Strict `<` on floats by cross-multiplication. -/
def pfLtB (a b : PyFloat) : Bool := a.num * (b.den : Int) < b.num * (a.den : Int)

/-- Strict `>` on floats. -/
def pfGtB (a b : PyFloat) : Bool := pfLtB b a

/-- A Python/JSON value as manipulated by the validators: `None`, `bool`,
`int`, `float`, `str`, `list`, and `dict` (an insertion-ordered
association list, as Python dicts are). -/
inductive JVal where
  | vnull : JVal
  | vbool (b : Bool) : JVal
  | vint (n : Int) : JVal
  | vnum (q : PyFloat) : JVal
  | vstr (s : String) : JVal
  | vlist (xs : List JVal) : JVal
  | vobj (fields : List (String × JVal)) : JVal

/-- The pair of mutable lists `self.errors` / `self.warnings` of a
validator instance. -/
structure Emitted where
  errors : List String := []
  warnings : List String := []
deriving DecidableEq

/-- Appending of emissions, in order. -/
def Emitted.app (a b : Emitted) : Emitted :=
  ⟨a.errors ++ b.errors, a.warnings ++ b.warnings⟩

/-- A validator computation: the findings it appends to the instance
lists, and either a result or the Python exception that escaped it.
Emissions made before the exception are kept, exactly as appends to
`self.errors` survive a later uncaught exception in Python. -/
def EM (α : Type u) : Type u := Emitted × Except String α

/-- Sequencing of validator computations: emissions concatenate in
program order; an exception aborts the rest but keeps what was already
appended. -/
def EM.bind {α β : Type u} (m : EM α) (f : α → EM β) : EM β :=
  match m with
  | (e, .ok a) => (e.app (f a).1, (f a).2)
  | (e, .error s) => (e, .error s)

instance : Monad EM where
  pure a := (⟨[], []⟩, .ok a)
  bind := EM.bind

/-- Append an Error finding (`self.errors.append(...)`). -/
def emitE (msg : String) : EM Unit := (⟨[msg], []⟩, .ok ())

/-- Append a Warning finding (`self.warnings.append(...)`). -/
def emitW (msg : String) : EM Unit := (⟨[], [msg]⟩, .ok ())

/-- Run a fallible primitive with no emissions of its own. -/
def liftE {α : Type u} (r : Except String α) : EM α := (⟨[], []⟩, r)

/-- Python truthiness (`bool(x)`). -/
def pyTruthy : JVal → Bool
  | .vnull => false
  | .vbool b => b
  | .vint n => n ≠ 0
  | .vnum q => q.num ≠ 0
  | .vstr s => s ≠ ""
  | .vlist xs => !xs.isEmpty
  | .vobj fs => !fs.isEmpty

/-- `d.get(k, default)`: association-list lookup on a dict; raises
`AttributeError` on any non-dict receiver, as Python does. -/
def pyGetD : JVal → String → JVal → Except String JVal
  | .vobj fs, k, dflt => .ok ((fs.lookup k).getD dflt)
  | _, _, _ => .error "AttributeError: object has no attribute get"

/-- `d[k]` subscription on a dict. -/
def pySubscr : JVal → String → Except String JVal
  | .vobj fs, k =>
    match fs.lookup k with
    | some v => .ok v
    | none => .error ("KeyError: " ++ k)
  | _, _ => .error "TypeError: object is not subscriptable"

/-- Character-list version of `String.startsWith`. -/
def listPre : List Char → List Char → Bool
  | [], _ => true
  | _ :: _, [] => false
  | a :: as, b :: bs => a = b && listPre as bs

/-- Substring test (`needle in haystack` for strings). -/
def strInStr (needle hay : String) : Bool :=
  go needle.data hay.data
where
  go (n : List Char) : List Char → Bool
    | [] => n.isEmpty
    | c :: t => listPre n (c :: t) || go n t

/-- The `in` operator: key test on dicts, membership on lists,
substring on strings; `TypeError` otherwise. -/
def pyContains (k : String) : JVal → Except String Bool
  | .vobj fs => .ok (fs.any (fun p => p.1 == k))
  | .vlist xs => .ok (xs.any (fun x => match x with | .vstr s => s == k | _ => false))
  | .vstr s => .ok (strInStr k s)
  | _ => .error "TypeError: argument is not iterable"

/-- `len(x)` for strings, lists and dicts; `TypeError` otherwise. -/
def pyLen : JVal → Except String Nat
  | .vstr s => .ok s.length
  | .vlist xs => .ok xs.length
  | .vobj fs => .ok fs.length
  | _ => .error "TypeError: object has no len"

/-- Iteration (`for x in v`): list elements, the characters of a string,
or the keys of a dict; `TypeError` otherwise. -/
def pyIterate : JVal → Except String (List JVal)
  | .vlist xs => .ok xs
  | .vstr s => .ok (s.data.map (fun c => JVal.vstr (String.mk [c])))
  | .vobj fs => .ok (fs.map (fun p => JVal.vstr p.1))
  | _ => .error "TypeError: object is not iterable"

/-- Int-like view used for Python numeric operators (`bool` is an `int`
subclass in Python). -/
def intLike : JVal → Option Int
  | .vint n => some n
  | .vbool b => some (if b then 1 else 0)
  | _ => none

/-- Numeric view of `int`, `float` and `bool` values. -/
def numLike : JVal → Option PyFloat
  | .vint n => some (pfOfInt n)
  | .vnum q => some q
  | .vbool b => some (pfOfInt (if b then 1 else 0))
  | _ => none

/-- `isinstance(x, int)` (includes `bool`). -/
def isinstInt : JVal → Bool
  | .vint _ => true
  | .vbool _ => true
  | _ => false

/-- `isinstance(x, (int, float))` (includes `bool`). -/
def isinstNum : JVal → Bool
  | .vint _ => true
  | .vnum _ => true
  | .vbool _ => true
  | _ => false

/-- Decimal-digit value of a character. -/
def digitVal (c : Char) : Nat := c.toNat - 48

/-- Value of a non-empty all-digit character list. -/
def digitsVal : List Char → Option Nat
  | [] => none
  | cs => if cs.all Char.isDigit then some (cs.foldl (fun a c => a * 10 + digitVal c) 0) else none

/-- Parse of a Python `float()` literal: optional sign, digits with an
optional single point (no exponent, which the receipts never use). -/
def parseFloat (s : String) : Option PyFloat :=
  let cs := (s.data.dropWhile (· = ' ')).reverse.dropWhile (· = ' ') |>.reverse
  let (sgn, body) : Int × List Char :=
    match cs with
    | '-' :: t => (-1, t)
    | '+' :: t => (1, t)
    | t => (1, t)
  let ip := body.takeWhile (· ≠ '.')
  let rest := body.dropWhile (· ≠ '.')
  match rest with
  | [] =>
    match digitsVal ip with
    | some n => some ⟨sgn * (n : Int), 1⟩
    | none => none
  | '.' :: fp =>
    if ip.all Char.isDigit ∧ fp.all Char.isDigit ∧ (ip ≠ [] ∨ fp ≠ []) then
      let ipv : Nat := ip.foldl (fun a c => a * 10 + digitVal c) 0
      let fpv : Nat := fp.foldl (fun a c => a * 10 + digitVal c) 0
      some ⟨sgn * ((ipv * 10 ^ fp.length + fpv : Nat) : Int), 10 ^ fp.length⟩
    else none
  | _ => none

/-- Parse of a Python `int()` literal: optional sign and digits. -/
def parseInt (s : String) : Option Int :=
  let cs := (s.data.dropWhile (· = ' ')).reverse.dropWhile (· = ' ') |>.reverse
  match cs with
  | '-' :: t => (digitsVal t).map (fun n => -(n : Int))
  | '+' :: t => (digitsVal t).map (fun n => (n : Int))
  | t => (digitsVal t).map (fun n => (n : Int))

/-- `float(x)`: numbers and numeric strings convert, everything else
raises. -/
def pyFloat : JVal → Except String PyFloat
  | .vint n => .ok (pfOfInt n)
  | .vnum q => .ok q
  | .vbool b => .ok (pfOfInt (if b then 1 else 0))
  | .vstr s =>
    match parseFloat s with
    | some q => .ok q
    | none => .error ("ValueError: could not convert string to float: " ++ s)
  | _ => .error "TypeError: float() argument must be a string or a number"

/-- `int(x)`: truncation toward zero for floats, parse for strings. -/
def pyInt : JVal → Except String Int
  | .vint n => .ok n
  | .vbool b => .ok (if b then 1 else 0)
  | .vnum q => .ok (if q.num ≥ 0 then (q.num.natAbs / q.den : Nat) else -((q.num.natAbs / q.den : Nat) : Int))
  | .vstr s =>
    match parseInt s with
    | some n => .ok n
    | none => .error ("ValueError: invalid literal for int() with base 10: " ++ s)
  | _ => .error "TypeError: int() argument must be a string or a number"

/-- Python `+` as used by `sum(...)`: `int + int` stays `int`, any float
makes a float; anything non-numeric raises. -/
def pyAdd (a b : JVal) : Except String JVal :=
  match intLike a, intLike b with
  | some x, some y => .ok (.vint (x + y))
  | _, _ =>
    match numLike a, numLike b with
    | some x, some y => .ok (.vnum (pfAdd x y))
    | _, _ => .error "TypeError: unsupported operand type for +"

/-- Python `-` on numbers. -/
def pySub (a b : JVal) : Except String JVal :=
  match intLike a, intLike b with
  | some x, some y => .ok (.vint (x - y))
  | _, _ =>
    match numLike a, numLike b with
    | some x, some y => .ok (.vnum (pfSub x y))
    | _, _ => .error "TypeError: unsupported operand type for -"

/-- String repetition used by Python `str * int`. -/
def strRepeat (s : String) : Int → String
  | .ofNat n => String.join (List.replicate n s)
  | .negSucc _ => ""

/-- Python `*`: numeric product (int when both int-like), or string
repetition; anything else raises. -/
def pyMul (a b : JVal) : Except String JVal :=
  match intLike a, intLike b with
  | some x, some y => .ok (.vint (x * y))
  | _, _ =>
    match numLike a, numLike b with
    | some x, some y => .ok (.vnum (pfMul x y))
    | _, _ =>
      match a, b with
      | .vstr s, _ =>
        match intLike b with
        | some n => .ok (.vstr (strRepeat s n))
        | none => .error "TypeError: unsupported operand type for *"
      | _, .vstr s =>
        match intLike a with
        | some n => .ok (.vstr (strRepeat s n))
        | none => .error "TypeError: unsupported operand type for *"
      | _, _ => .error "TypeError: unsupported operand type for *"

/-- `abs(x)` on numbers. -/
def pyAbs : JVal → Except String JVal
  | .vint n => .ok (.vint |n|)
  | .vnum q => .ok (.vnum (pfAbs q))
  | .vbool b => .ok (.vint (if b then 1 else 0))
  | _ => .error "TypeError: bad operand type for abs()"

/-- Comparison `x < c` of a value against a numeric constant; raises on
non-numbers as Python does. -/
def numLt (a : JVal) (c : PyFloat) : Except String Bool :=
  match numLike a with
  | some x => .ok (pfLtB x c)
  | none => .error "TypeError: comparison not supported"

/-- Comparison `x > c` of a value against a numeric constant. -/
def numGt (a : JVal) (c : PyFloat) : Except String Bool :=
  match numLike a with
  | some x => .ok (pfGtB x c)
  | none => .error "TypeError: comparison not supported"

/-- Whitespace characters for `str.strip()`. -/
def isPySpace (c : Char) : Bool := c = ' ' || c = '\t' || c = '\n' || c = '\r'

/-- `str.strip()`. -/
def pyStrip (s : String) : String :=
  String.mk (((s.data.dropWhile isPySpace).reverse.dropWhile isPySpace).reverse)

/-- `s.replace('Z', '+00:00')` as performed on the purchase date. -/
def replaceZ (s : String) : String :=
  String.mk (s.data.foldr (fun c acc => (if c = 'Z' then "+00:00".data else [c]) ++ acc) [])

/-- `str.isdigit()` restricted to ASCII digits, which is all the
receipts contain. -/
def strIsdigit (s : String) : Bool := s ≠ "" && s.data.all Char.isDigit

/-- `receipt_id.startswith('RCPT_')`. -/
def startsWithRCPT (s : String) : Bool := listPre "RCPT_".data s.data

/-- Decimal digits of the long division `rem/den`, with enough fuel for
every decimal the receipts use.  Value-based: a common factor of `rem`
and `den` scales away in every quotient and remainder. -/
def fracDigits (den : Nat) : Nat → Nat → String
  | 0, _ => ""
  | fuel + 1, rem =>
    if rem = 0 then ""
    else toString (rem * 10 / den) ++ fracDigits den fuel (rem * 10 % den)

/-- `str(x)` for a Python float: integral values render with a trailing
`.0`, others with their (terminating) decimal expansion. -/
def pyStrOfFloat (q : PyFloat) : String :=
  let sgn := if q.num < 0 then "-" else ""
  let n := q.num.natAbs
  let ip := n / q.den
  let rem := n % q.den
  if rem = 0 then sgn ++ toString ip ++ ".0"
  else sgn ++ toString ip ++ "." ++ fracDigits q.den 17 rem

/-- `type(x).__name__`. -/
def pyTypeName : JVal → String
  | .vnull => "NoneType"
  | .vbool _ => "bool"
  | .vint _ => "int"
  | .vnum _ => "float"
  | .vstr _ => "str"
  | .vlist _ => "list"
  | .vobj _ => "dict"

mutual

/-- `repr(x)`: how Python renders a value inside a container or an
f-string of a container. -/
def pyRepr : JVal → String
  | .vnull => "None"
  | .vbool b => if b then "True" else "False"
  | .vint n => toString n
  | .vnum q => pyStrOfFloat q
  | .vstr s => "\x27" ++ s ++ "\x27"
  | .vlist xs => "[" ++ String.intercalate ", " (pyReprList xs) ++ "]"
  | .vobj fs => "\x7b" ++ String.intercalate ", " (pyReprFields fs) ++ "\x7d"

/-- Renderings of the elements of a list. -/
def pyReprList : List JVal → List String
  | [] => []
  | x :: xs => pyRepr x :: pyReprList xs

/-- Renderings of the entries of a dict. -/
def pyReprFields : List (String × JVal) → List String
  | [] => []
  | (k, v) :: xs => ("\x27" ++ k ++ "\x27: " ++ pyRepr v) :: pyReprFields xs

end

/-- `str(x)` as interpolated into the validators' f-strings: bare text
for strings, `repr`-style otherwise. -/
def pyStr : JVal → String
  | .vstr s => s
  | v => pyRepr v

/-- A (naive, timezone-stripped) Python `datetime`.  The JSON validator
gives `datetime.now()` the same `tzinfo` as the parsed date before
comparing, so the comparison is on the wall-clock fields, which is what
this structure keeps. -/
structure PyDateTime where
  year : Nat
  month : Nat
  day : Nat
  hour : Nat
  minute : Nat
  second : Nat
deriving DecidableEq

/-- Strict lexicographic `<` on datetimes. -/
def dtLtB (a b : PyDateTime) : Bool :=
  if a.year < b.year then true else if b.year < a.year then false
  else if a.month < b.month then true else if b.month < a.month then false
  else if a.day < b.day then true else if b.day < a.day then false
  else if a.hour < b.hour then true else if b.hour < a.hour then false
  else if a.minute < b.minute then true else if b.minute < a.minute then false
  else decide (a.second < b.second)

/-- Two-digit number from two characters. -/
def d2 (a b : Char) : Option Nat :=
  if a.isDigit && b.isDigit then some (digitVal a * 10 + digitVal b) else none

/-- Four-digit number from four characters. -/
def d4 (a b c d : Char) : Option Nat :=
  if a.isDigit && b.isDigit && c.isDigit && d.isDigit then
    some (((digitVal a * 10 + digitVal b) * 10 + digitVal c) * 10 + digitVal d)
  else none

/-- A trailing UTC-offset suffix `±HH:MM`, accepted and discarded (the
validator compares wall-clock fields under a shared tzinfo). -/
def offsetOk : List Char → Bool
  | [sg, h1, h2, ':', m1, m2] =>
    (sg = '+' || sg = '-') && h1.isDigit && h2.isDigit && m1.isDigit && m2.isDigit
  | _ => false

/-- The `HH:MM[:SS][±HH:MM]` tail of an ISO datetime. -/
def parseTimeTail : List Char → Option (Nat × Nat × Nat)
  | h1 :: h2 :: ':' :: mi1 :: mi2 :: rest2 => do
    let hh ← d2 h1 h2
    let mi ← d2 mi1 mi2
    if hh ≤ 23 ∧ mi ≤ 59 then
      match rest2 with
      | [] => some (hh, mi, 0)
      | ':' :: s1 :: s2 :: rest3 => do
        let ss ← d2 s1 s2
        if ss ≤ 59 then
          match rest3 with
          | [] => some (hh, mi, ss)
          | off => if offsetOk off then some (hh, mi, ss) else none
        else none
      | off => if offsetOk off then some (hh, mi, 0) else none
    else none
  | _ => none

/-- Model of `datetime.fromisoformat`: `YYYY-MM-DD`, optionally followed
by `T` or a space and a time, optionally followed by a UTC offset. -/
def fromisoformat (s : String) : Option PyDateTime :=
  match s.data with
  | y1 :: y2 :: y3 :: y4 :: '-' :: m1 :: m2 :: '-' :: dd1 :: dd2 :: rest => do
    let y ← d4 y1 y2 y3 y4
    let mo ← d2 m1 m2
    let da ← d2 dd1 dd2
    if 1 ≤ mo ∧ mo ≤ 12 ∧ 1 ≤ da ∧ da ≤ 31 then
      match rest with
      | [] => some ⟨y, mo, da, 0, 0, 0⟩
      | sep :: t =>
        if sep = 'T' || sep = ' ' then do
          let (hh, mi, ss) ← parseTimeTail t
          some ⟨y, mo, da, hh, mi, ss⟩
        else none
    else none
  | _ => none

/-- Model of `datetime.strptime(s, '%Y-%m-%d')`: exactly a date, no
trailing characters. -/
def strptimeYMD (s : String) : Option PyDateTime :=
  match s.data with
  | [y1, y2, y3, y4, '-', m1, m2, '-', dd1, dd2] => do
    let y ← d4 y1 y2 y3 y4
    let mo ← d2 m1 m2
    let da ← d2 dd1 dd2
    if 1 ≤ mo ∧ mo ≤ 12 ∧ 1 ≤ da ∧ da ≤ 31 then some ⟨y, mo, da, 0, 0, 0⟩ else none
  | _ => none

/-- Epsilon for every currency comparison in the source (`0.01`). -/
def eps01 : PyFloat := ⟨1, 100⟩

/-- Rule 1 of both validators: minimum 5 items, Error below, Warning
noting the count otherwise (json_validator.py lines 78-85). -/
def jsonRule1 (items : JVal) : EM Unit := do
  let items_count ← liftE (pyLen items)
  if items_count < 5 then
    emitE ("Receipt must contain at least 5 items. Found: " ++ toString items_count)
  else
    emitW ("Item count validation passed: " ++ toString items_count ++ " items")

/-- Rule 2 of the JSON validator: purchase date not in the future, with
`ValueError` from `fromisoformat` caught and turned into an Error
(json_validator.py lines 87-97).  A truthy non-string date raises
`AttributeError` at `.replace`, which the `except ValueError` does not
catch. -/
def jsonRule2 (now : PyDateTime) (d : JVal) : EM Unit := do
  let pd ← liftE (pyGetD d "purchase_date" .vnull)
  if pyTruthy pd then
    match pd with
    | .vstr s =>
      match fromisoformat (replaceZ s) with
      | some dt =>
        if dtLtB now dt then emitE "Purchase date cannot be in the future" else pure ()
      | none =>
        emitE ("Invalid date format: Invalid isoformat string: \x27" ++ replaceZ s ++ "\x27")
    | _ => liftE (.error "AttributeError: object has no attribute replace")
  else pure ()

/-- Rule 3 of both validators (textually duplicated in the two sources):
header total versus `pricing.grand_total` within epsilon
(json_validator.py lines 99-107, xml_validator.py lines 80-88).
`float(...)` of a non-numeric header total raises and is not caught. -/
def rule3TotalMatch (d : JVal) : EM Unit := do
  let ta ← liftE (pyGetD d "total_amount" (.vint 0))
  let total_amount ← liftE (pyFloat ta)
  let pricing ← liftE (pyGetD d "pricing" (.vobj []))
  let hasGT ← liftE (pyContains "grand_total" pricing)
  if hasGT then do
    let gv ← liftE (pySubscr pricing "grand_total")
    let calculated_total ← liftE (pyFloat gv)
    if pfGtB (pfAbs (pfSub total_amount calculated_total)) eps01 then
      emitE ("Total amount mismatch. Header: " ++ pyStrOfFloat total_amount ++
             ", Pricing: " ++ pyStrOfFloat calculated_total)
    else pure ()
  else pure ()

/-- Body of the JSON validator's per-item loop (Rule 4,
json_validator.py lines 110-129): positive-integer quantity,
non-negative price, subtotal arithmetic within epsilon. -/
def jsonItemCheck (i : Nat) (item : JVal) : EM Unit := do
  let quantity ← liftE (pyGetD item "quantity" (.vint 0))
  let unit_price ← liftE (pyGetD item "unit_price" (.vint 0))
  let subtotal ← liftE (pyGetD item "subtotal" (.vint 0))
  let qBad : Bool :=
    match quantity with
    | .vint n => decide (n ≤ 0)
    | .vbool b => !b
    | _ => true
  if qBad then
    emitE ("Item " ++ toString (i + 1) ++ ": Quantity must be positive integer. Found: " ++
           pyStr quantity)
  else pure ()
  let pBad : Bool :=
    match unit_price with
    | .vint n => decide (n < 0)
    | .vnum q => pfLtB q (pfOfInt 0)
    | .vbool _ => false
    | _ => true
  if pBad then
    emitE ("Item " ++ toString (i + 1) ++ ": Unit price cannot be negative. Found: " ++
           pyStr unit_price)
  else pure ()
  let expected ← liftE (pyMul quantity unit_price)
  let diff ← liftE (pySub subtotal expected)
  let adiff ← liftE (pyAbs diff)
  let gt ← liftE (numGt adiff eps01)
  if gt then
    emitE ("Item " ++ toString (i + 1) ++ ": Subtotal calculation error. Expected: " ++
           pyStr expected ++ ", Found: " ++ pyStr subtotal)
  else pure ()

/-- `for i, item in enumerate(items)` over the JSON item checks. -/
def jsonItemLoop : Nat → List JVal → EM Unit
  | _, [] => pure ()
  | i, x :: rest => do
    jsonItemCheck i x
    jsonItemLoop (i + 1) rest

/-- Rule 4 of the JSON validator: iterate the items. -/
def jsonRule4 (items : JVal) : EM Unit := do
  let xs ← liftE (pyIterate items)
  jsonItemLoop 0 xs

/-- Rule 5 of both validators: loyalty members should have a
`member_since` date — Warning only. -/
def loyaltyRule (customer : JVal) : EM Unit := do
  let lm ← liftE (pyGetD customer "loyalty_member" .vnull)
  if pyTruthy lm then do
    let ms ← liftE (pyGetD customer "member_since" .vnull)
    if pyTruthy ms then pure () else emitW "Loyalty member should have member_since date"
  else pure ()

/-- Rule 6 of the JSON validator: a present email must contain `@`
(json_validator.py lines 137-141).  No such rule exists in the XML
validator. -/
def jsonRule6 (customer : JVal) : EM Unit := do
  let email ← liftE (pyGetD customer "email" (.vstr ""))
  if pyTruthy email then do
    let c ← liftE (pyContains "@" email)
    if c then pure () else emitE ("Invalid email format: " ++ pyStr email)
  else pure ()

/-- Rule 7 of the JSON validator (json_validator.py lines 143-156):
credit-card payments need `card_type` and `card_number_last_four`, and
the source's condition `card_number and not card_number.isdigit() or
len(card_number) != 4` is reproduced with its Python operator
precedence (the `not` binds only the digit test). -/
def jsonRule7 (d : JVal) : EM Unit := do
  let payment_method ← liftE (pyGetD d "payment_method" .vnull)
  let payment ← liftE (pyGetD d "payment" (.vobj []))
  let isCC : Bool :=
    match payment_method with
    | .vstr s => s == "Credit Card"
    | _ => false
  if isCC then do
    let ct ← liftE (pyGetD payment "card_type" .vnull)
    let cn4 ← liftE (pyGetD payment "card_number_last_four" .vnull)
    if !pyTruthy ct || !pyTruthy cn4 then
      emitE "Credit Card payment requires card_type and card_number_last_four"
    else pure ()
    let card_number ← liftE (pyGetD payment "card_number_last_four" (.vstr ""))
    let ab ←
      if pyTruthy card_number then
        match card_number with
        | .vstr s => pure !(strIsdigit s)
        | _ => liftE (.error "AttributeError: object has no attribute isdigit")
      else pure false
    if ab then
      emitE ("Card number last four must be 4 digits. Found: " ++ pyStr card_number)
    else do
      let l ← liftE (pyLen card_number)
      if l ≠ 4 then
        emitE ("Card number last four must be 4 digits. Found: " ++ pyStr card_number)
      else pure ()
  else pure ()

/-- Digital-signature rule of both validators: `algorithm` and
`signature` must be present and truthy. -/
def signatureRule (d : JVal) : EM Unit := do
  let ds ← liftE (pyGetD d "digital_signature" (.vobj []))
  let a ← liftE (pyGetD ds "algorithm" .vnull)
  let s ← liftE (pyGetD ds "signature" .vnull)
  if !pyTruthy a || !pyTruthy s then
    emitE "Digital signature must include algorithm and signature"
  else pure ()

/-- The `prices.extend([unit_price, subtotal])` collection of Rule 9. -/
def collectPrices : List JVal → Except String (List JVal)
  | [] => .ok []
  | it :: rest => do
    let up ← pyGetD it "unit_price" (.vint 0)
    let st ← pyGetD it "subtotal" (.vint 0)
    let r ← collectPrices rest
    .ok ([up, st] ++ r)

/-- The per-price check of Rule 9: negative is an Error, above 100000 a
Warning. -/
def priceLoop : List JVal → EM Unit
  | [] => pure ()
  | p :: rest => do
    let neg ← liftE (numLt p (pfOfInt 0))
    if neg then emitE ("Price cannot be negative: " ++ pyStr p)
    else do
      let hi ← liftE (numGt p (pfOfInt 100000))
      if hi then emitW ("Unusually high price: " ++ pyStr p) else pure ()
    priceLoop rest

/-- Rule 9 of the JSON validator (json_validator.py lines 164-181):
price sanity across items and the pricing section.  Absent from the XML
validator. -/
def jsonRule9 (items : JVal) (d : JVal) : EM Unit := do
  let xs ← liftE (pyIterate items)
  let prices ← liftE (collectPrices xs)
  let pricing_section ← liftE (pyGetD d "pricing" (.vobj []))
  let hs ← liftE (pyContains "subtotal" pricing_section)
  let prices ←
    if hs then do
      let v ← liftE (pySubscr pricing_section "subtotal")
      pure (prices ++ [v])
    else pure prices
  let hg ← liftE (pyContains "grand_total" pricing_section)
  let prices ←
    if hg then do
      let v ← liftE (pySubscr pricing_section "grand_total")
      pure (prices ++ [v])
    else pure prices
  priceLoop prices

/-- The required top-level fields of Rule 10 (json_validator.py lines
184-187). -/
def requiredFields : List String :=
  ["receipt_id", "purchase_date", "store_name", "customer", "store",
   "items", "payment", "transaction", "footer"]

/-- The per-field loop of Rule 10. -/
def reqLoop : List String → JVal → EM Unit
  | [], _ => pure ()
  | f :: rest, d => do
    let c ← liftE (pyContains f d)
    if c then pure () else emitE ("Required field missing: " ++ f)
    reqLoop rest d

/-- Rule 10 of the JSON validator: required-field presence.  Absent from
the XML validator. -/
def jsonRule10 (d : JVal) : EM Unit := reqLoop requiredFields d

namespace JSONReceiptValidator

/-- The rule sequence of `JSONReceiptValidator.validate_business_rules`
(json_validator.py lines 70-194), in source order.  `items` and
`customer` are fetched once and shared exactly as the source's local
bindings are. -/
def rulesCore (now : PyDateTime) (d : JVal) : EM Unit := do
  let items ← liftE (pyGetD d "items" (.vlist []))
  jsonRule1 items
  jsonRule2 now d
  rule3TotalMatch d
  jsonRule4 items
  let customer ← liftE (pyGetD d "customer" (.vobj []))
  loyaltyRule customer
  jsonRule6 customer
  jsonRule7 d
  signatureRule d
  jsonRule9 items d
  jsonRule10 d

/-- `validate_business_rules`: its returned `is_valid` flag is set to
`False` together with every Error append and touched by nothing else,
so it equals "this call appended no error". -/
def validate_business_rules (now : PyDateTime) (d : JVal) : EM Bool :=
  match rulesCore now d with
  | (e, .ok _) => (e, .ok e.errors.isEmpty)
  | (e, .error s) => (e, .error s)

/-- `validate_data_types` (json_validator.py lines 196-228): receipt-id
prefix convention (Warning), numeric header total (Error), parseable
ISO purchase date (Error). -/
def dataTypesCore (d : JVal) : EM Unit := do
  let receipt_id ← liftE (pyGetD d "receipt_id" (.vstr ""))
  let ridOk : Bool :=
    match receipt_id with
    | .vstr s => startsWithRCPT s
    | _ => false
  if ridOk then pure ()
  else emitW ("Receipt ID format may be incorrect: " ++ pyStr receipt_id)
  let v ← liftE (pyGetD d "total_amount" .vnull)
  (match v with
   | .vnull => pure ()
   | .vint _ => pure ()
   | .vnum _ => pure ()
   | .vbool _ => pure ()
   | _ => emitE ("Field \x27total_amount\x27 must be numeric. Found: " ++ pyTypeName v))
  let pv ← liftE (pyGetD d "purchase_date" .vnull)
  (match pv with
   | .vnull => pure ()
   | .vstr s =>
     if (fromisoformat (replaceZ s)).isSome then pure ()
     else emitE ("Field \x27purchase_date\x27 must be valid ISO date. Found: " ++ s)
   | _ => liftE (.error "AttributeError: object has no attribute replace"))

/-- `validate_data_types` with its own `is_valid` result. -/
def validate_data_types (d : JVal) : EM Bool :=
  match dataTypesCore d with
  | (e, .ok _) => (e, .ok e.errors.isEmpty)
  | (e, .error s) => (e, .error s)

/-- Derived totals (`calculate_totals`, json_validator.py lines
230-245). -/
structure Totals where
  calculated_subtotal : JVal
  taxable_subtotal : JVal
  item_count : Nat

/-- `sum(item.get('subtotal', 0) for item in items)`. -/
def sumSubtotals : List JVal → JVal → Except String JVal
  | [], acc => .ok acc
  | it :: rest, acc => do
    let s ← pyGetD it "subtotal" (.vint 0)
    let acc2 ← pyAdd acc s
    sumSubtotals rest acc2

/-- `sum(... for item in items if item.get('tax_applied', False))`. -/
def sumTaxable : List JVal → JVal → Except String JVal
  | [], acc => .ok acc
  | it :: rest, acc => do
    let ta ← pyGetD it "tax_applied" (.vbool false)
    if pyTruthy ta then do
      let s ← pyGetD it "subtotal" (.vint 0)
      let acc2 ← pyAdd acc s
      sumTaxable rest acc2
    else sumTaxable rest acc

/-- `calculate_totals`. -/
def calculate_totals (d : JVal) : Except String Totals := do
  let items ← pyGetD d "items" (.vlist [])
  let xs ← pyIterate items
  let s ← sumSubtotals xs (.vint 0)
  let t ← sumTaxable xs (.vint 0)
  let n ← pyLen items
  .ok ⟨s, t, n⟩

/-- Outcome of the external `jsonschema.validate` call, which is an
out-of-scope collaborator per spec §1/§6 and is therefore passed in as
an oracle. -/
inductive SchemaOutcome where
  | pass
  | violation (msg : String) (path : List String)
  | failure (msg : String)

/-- Environment of a run: whether the `jsonschema` import succeeded,
whether a schema file was supplied, and what the external check would
report. -/
structure SchemaEnv where
  jsonschemaAvailable : Bool
  hasSchemaFile : Bool
  outcome : SchemaOutcome

/-- `' -> '.join(str(p) for p in e.path)`. -/
def joinArrow (p : List String) : String := String.intercalate " -> " p

/-- `validate_schema` (json_validator.py lines 44-68): note that an
unavailable library and every failure mode append to the same
`self.errors` list the business rules use. -/
def validate_schema (env : SchemaEnv) (d : JVal) : Emitted × Bool :=
  if !env.jsonschemaAvailable then
    (⟨["JSON Schema validation requires jsonschema library"], []⟩, false)
  else if !pyTruthy d then
    (⟨["No JSON data loaded for schema validation"], []⟩, false)
  else
    match env.outcome with
    | .pass => (⟨[], []⟩, true)
    | .violation m p =>
      (⟨["Schema validation error: " ++ m] ++
        (if p.isEmpty then [] else ["  At path: " ++ joinArrow p]), []⟩, false)
    | .failure m => (⟨["Schema validation failed: " ++ m], []⟩, false)

/-- The report of `generate_report` (json_validator.py lines 247-281),
minus the file name and wall-clock timestamp. -/
structure Report where
  schema_valid : Option Bool
  business_rules_valid : Bool
  data_types_valid : Bool
  totals : Totals
  errors : List String
  warnings : List String
  overall_valid : Bool

/-- `generate_report` for an already-loaded document: schema check (only
if a schema file was supplied), business rules, data types, totals, and
`overall_valid = (len(self.errors) == 0)`.  `st` is the instance state
(`self.errors`, `self.warnings`) at call time; an exception raised by
any phase escapes `generate_report`, so no report is produced. -/
def generate_report (env : SchemaEnv) (now : PyDateTime) (d : JVal) (st : Emitted) :
    Except String Report :=
  let sc : Option (Emitted × Bool) :=
    if env.hasSchemaFile then some (validate_schema env d) else none
  let se : Emitted := match sc with | some (e, _) => e | none => ⟨[], []⟩
  let schemaValid : Option Bool := match sc with | some (_, b) => some b | none => none
  match validate_business_rules now d with
  | (_, .error e) => .error e
  | (be, .ok brv) =>
    match validate_data_types d with
    | (_, .error e) => .error e
    | (de, .ok dtv) =>
      match calculate_totals d with
      | .error e => .error e
      | .ok tot =>
        let errs := st.errors ++ se.errors ++ be.errors ++ de.errors
        let warns := st.warnings ++ se.warnings ++ be.warnings ++ de.warnings
        .ok { schema_valid := schemaValid, business_rules_valid := brv,
              data_types_valid := dtv, totals := tot, errors := errs,
              warnings := warns, overall_valid := errs.isEmpty }

end JSONReceiptValidator

/-- A parsed XML element: tag, attributes, text content (empty string
for `None`), children in document order. -/
inductive XmlNode where
  | mk (tag : String) (attrib : List (String × String)) (text : String)
       (children : List XmlNode)

/-- Tag accessor. -/
def XmlNode.tag : XmlNode → String
  | .mk t _ _ _ => t

/-- Replace the value stored at a key, keeping its position — what
`result[child.tag] = ...` does on a Python dict with an existing key. -/
def setKey : List (String × JVal) → String → JVal → List (String × JVal)
  | [], _, _ => []
  | (k, w) :: rest, tag, v =>
    if k = tag then (k, v) :: rest else (k, w) :: setKey rest tag v

/-- One step of `xml_to_dict`'s child insertion (xml_validator.py lines
164-172): a repeated tag turns the stored value into a list and appends
in encounter order; a fresh tag is appended at the end. -/
def insertChild (res : List (String × JVal)) (tag : String) (v : JVal) :
    List (String × JVal) :=
  match res.lookup tag with
  | none => res ++ [(tag, v)]
  | some old =>
    let newv :=
      match old with
      | .vlist xs => JVal.vlist (xs ++ [v])
      | o => JVal.vlist [o, v]
    setKey res tag newv

/-- Insertion of all child pairs, left to right. -/
def insertAll : List (String × JVal) → List (String × JVal) → List (String × JVal)
  | res, [] => res
  | res, (t, v) :: rest => insertAll (insertChild res t v) rest

mutual

/-- `xml_to_dict` (xml_validator.py lines 148-174, and its `lxml` twin at
lines 188-214): attributes under `@`-prefixed keys, a leaf with text
becomes the stripped text itself (dropping any attributes), mixed
content keeps the text under `#text`, and repeated child tags collect
into lists. -/
def xml_to_dict : XmlNode → JVal
  | .mk _ attrib text children =>
    let base := attrib.map (fun p => ("@" ++ p.1, JVal.vstr p.2))
    let t := pyStrip text
    if t ≠ "" ∧ children.isEmpty then JVal.vstr t
    else
      let withText := if t ≠ "" then base ++ [("#text", JVal.vstr t)] else base
      JVal.vobj (insertAll withText (childPairs children))

/-- The `(child.tag, xml_to_dict(child))` pairs in document order. -/
def childPairs : List XmlNode → List (String × JVal)
  | [] => []
  | c :: cs => (c.tag, xml_to_dict c) :: childPairs cs

end

/-- Rule 1 of the XML validator (xml_validator.py lines 60-66): the item
count is `len(xml_data.get('items', {}).get('item', []))`, so a single
`<item>` child — stored by `xml_to_dict` as a plain dict — contributes
the number of its keys, not 1. -/
def xmlRule1 (xd : JVal) : EM Unit := do
  let itemsv ← liftE (pyGetD xd "items" (.vobj []))
  let itemv ← liftE (pyGetD itemsv "item" (.vlist []))
  let items_count ← liftE (pyLen itemv)
  if items_count < 5 then
    emitE ("Receipt must contain at least 5 items. Found: " ++ toString items_count)
  else
    emitW ("Item count validation passed: " ++ toString items_count ++ " items")

/-- Rule 2 of the XML validator (xml_validator.py lines 68-78):
`strptime(purchase_date, '%Y-%m-%d')` with `ValueError` caught. -/
def xmlRule2 (now : PyDateTime) (xd : JVal) : EM Unit := do
  let pd ← liftE (pyGetD xd "purchase_date" .vnull)
  if pyTruthy pd then
    match pd with
    | .vstr s =>
      match strptimeYMD s with
      | some dt =>
        if dtLtB now dt then emitE "Purchase date cannot be in the future" else pure ()
      | none => emitE "Invalid date format. Expected YYYY-MM-DD"
    | _ => liftE (.error "TypeError: strptime() argument must be str")
  else pure ()

/-- Body of the XML validator's per-item loop (Rule 4, xml_validator.py
lines 91-111): `int()` / `float()` coercions of the text values, then
the same three checks, with "positive" instead of "positive integer" in
the quantity message and float formatting throughout. -/
def xmlItemCheck (i : Nat) (item : JVal) : EM Unit := do
  let q ← liftE (pyGetD item "quantity" (.vint 0))
  let quantity ← liftE (pyInt q)
  let up ← liftE (pyGetD item "unit_price" (.vint 0))
  let unit_price ← liftE (pyFloat up)
  let st ← liftE (pyGetD item "subtotal" (.vint 0))
  let subtotal ← liftE (pyFloat st)
  if quantity ≤ 0 then
    emitE ("Item " ++ toString (i + 1) ++ ": Quantity must be positive. Found: " ++
           toString quantity)
  else pure ()
  if pfLtB unit_price (pfOfInt 0) then
    emitE ("Item " ++ toString (i + 1) ++ ": Unit price cannot be negative. Found: " ++
           pyStrOfFloat unit_price)
  else pure ()
  let expected : PyFloat := pfMul (pfOfInt quantity) unit_price
  if pfGtB (pfAbs (pfSub subtotal expected)) eps01 then
    emitE ("Item " ++ toString (i + 1) ++ ": Subtotal calculation error. Expected: " ++
           pyStrOfFloat expected ++ ", Found: " ++ pyStrOfFloat subtotal)
  else pure ()

/-- `for i, item in enumerate(items)` over the XML item checks. -/
def xmlItemLoop : Nat → List JVal → EM Unit
  | _, [] => pure ()
  | i, x :: rest => do
    xmlItemCheck i x
    xmlItemLoop (i + 1) rest

/-- Rule 4 of the XML validator: re-fetches `items.item` and iterates
it (iterating a dict yields its keys, whose `.get` then raises). -/
def xmlRule4 (xd : JVal) : EM Unit := do
  let itemsv ← liftE (pyGetD xd "items" (.vobj []))
  let itemv ← liftE (pyGetD itemsv "item" (.vlist []))
  let xs ← liftE (pyIterate itemv)
  xmlItemLoop 0 xs

/-- Rule 5 of the XML validator: loyalty warning on its own `customer`
fetch. -/
def xmlRule5 (xd : JVal) : EM Unit := do
  let customer ← liftE (pyGetD xd "customer" (.vobj []))
  loyaltyRule customer

/-- Rule 6 of the XML validator (xml_validator.py lines 119-126):
credit-card completeness, presence only — the XML validator has no
4-digit format check. -/
def xmlRule6 (xd : JVal) : EM Unit := do
  let payment_method ← liftE (pyGetD xd "payment_method" .vnull)
  let payment ← liftE (pyGetD xd "payment" (.vobj []))
  let isCC : Bool :=
    match payment_method with
    | .vstr s => s == "Credit Card"
    | _ => false
  if isCC then do
    let ct ← liftE (pyGetD payment "card_type" .vnull)
    let cn ← liftE (pyGetD payment "card_number_last_four" .vnull)
    if !pyTruthy ct || !pyTruthy cn then
      emitE "Credit Card payment requires card_type and card_number_last_four"
    else pure ()
  else pure ()

namespace XMLReceiptValidator

/-- The rule sequence of `XMLReceiptValidator.validate_business_rules`
(xml_validator.py lines 56-134), in source order: seven rules — there is
no email, card-format, price-sanity or required-fields rule here. -/
def rulesCore (now : PyDateTime) (xd : JVal) : EM Unit := do
  xmlRule1 xd
  xmlRule2 now xd
  rule3TotalMatch xd
  xmlRule4 xd
  xmlRule5 xd
  xmlRule6 xd
  signatureRule xd

/-- `validate_business_rules` with its `is_valid` result. -/
def validate_business_rules (now : PyDateTime) (xd : JVal) : EM Bool :=
  match rulesCore now xd with
  | (e, .ok _) => (e, .ok e.errors.isEmpty)
  | (e, .error s) => (e, .error s)

/-- `validate_xml_content` (xml_validator.py lines 136-223) for an
already-parsed tree: convert with `xml_to_dict`, run the business
rules, and catch any exception into a single generic Error — losing all
rules after the one that raised. -/
def validate_xml_content (now : PyDateTime) (root : XmlNode) : Emitted × Bool :=
  match validate_business_rules now (xml_to_dict root) with
  | (e, .ok b) => (e, b)
  | (e, .error m) =>
    (⟨e.errors ++ ["XML content validation failed: " ++ m], e.warnings⟩, false)

end XMLReceiptValidator

/-- Evaluation time used by the concrete runs: 2026-01-01. -/
def now0 : PyDateTime := ⟨2026, 1, 1, 0, 0, 0⟩

/-- A clean line item: quantity 1, unit price 2.0, subtotal 2.0. -/
def itemOk : JVal :=
  .vobj [("quantity", .vint 1), ("unit_price", .vnum ⟨2, 1⟩), ("subtotal", .vnum ⟨2, 1⟩)]

/-- A fully valid receipt document with six items (spec §8, scenario B
shape): every business rule and data-type check passes. -/
def docClean : JVal :=
  .vobj
    [("receipt_id", .vstr "RCPT_1"),
     ("purchase_date", .vstr "2024-01-15"),
     ("store_name", .vstr "S"),
     ("customer", .vobj []),
     ("store", .vstr "Main"),
     ("items", .vlist [itemOk, itemOk, itemOk, itemOk, itemOk, itemOk]),
     ("payment", .vobj []),
     ("transaction", .vstr "T1"),
     ("footer", .vstr "F"),
     ("total_amount", .vnum ⟨12, 1⟩),
     ("digital_signature", .vobj [("algorithm", .vstr "RSA"), ("signature", .vstr "sig")])]

/-- Environment: schema file supplied but the `jsonschema` library is
not importable. -/
def envUnavailable : JSONReceiptValidator.SchemaEnv :=
  ⟨false, true, .pass⟩

/-- Environment: no schema file supplied (schema check skipped). -/
def envNoSchema : JSONReceiptValidator.SchemaEnv :=
  ⟨true, false, .pass⟩

/-- Scenario A of spec §8: header total 100.00, pricing grand_total
100.02. -/
def docMismatch : JVal :=
  .vobj
    [("receipt_id", .vstr "RCPT_1"),
     ("purchase_date", .vstr "2024-01-15"),
     ("store_name", .vstr "S"),
     ("customer", .vobj []),
     ("store", .vstr "Main"),
     ("items", .vlist [itemOk, itemOk, itemOk, itemOk, itemOk, itemOk]),
     ("payment", .vobj []),
     ("transaction", .vstr "T1"),
     ("footer", .vstr "F"),
     ("total_amount", .vnum ⟨100, 1⟩),
     ("pricing", .vobj [("grand_total", .vnum ⟨10002, 100⟩)]),
     ("digital_signature", .vobj [("algorithm", .vstr "RSA"), ("signature", .vstr "sig")])]

/-- A well-formed document whose header total is the non-numeric string
`"abc"`: `float()` raises inside Rule 3. -/
def docBadTotal : JVal :=
  .vobj
    [("receipt_id", .vstr "RCPT_1"),
     ("purchase_date", .vstr "2024-01-15"),
     ("store_name", .vstr "S"),
     ("customer", .vobj []),
     ("store", .vstr "Main"),
     ("items", .vlist [itemOk, itemOk, itemOk, itemOk, itemOk, itemOk]),
     ("payment", .vobj []),
     ("transaction", .vstr "T1"),
     ("footer", .vstr "F"),
     ("total_amount", .vstr "abc"),
     ("digital_signature", .vobj [("algorithm", .vstr "RSA"), ("signature", .vstr "sig")])]

/-- A document whose purchase date is unparseable text. -/
def docBadDate : JVal :=
  .vobj
    [("purchase_date", .vstr "not-a-date"),
     ("items", .vlist [itemOk, itemOk, itemOk, itemOk, itemOk, itemOk])]

/-- Credit-card payment with `card_type` present but
`card_number_last_four` absent. -/
def docCardMissing : JVal :=
  .vobj
    [("payment_method", .vstr "Credit Card"),
     ("payment", .vobj [("card_type", .vstr "Visa")])]

/-- Credit-card payment whose `card_number_last_four` is `"12"`
(spec §8, scenario C). -/
def docCard12 : JVal :=
  .vobj
    [("payment_method", .vstr "Credit Card"),
     ("payment", .vobj [("card_type", .vstr "Visa"),
                        ("card_number_last_four", .vstr "12")])]

/-- A document with no `total_amount` but a pricing `grand_total` of
0.05. -/
def docNoHeaderTotal : JVal :=
  .vobj
    [("items", .vlist [itemOk, itemOk, itemOk, itemOk, itemOk]),
     ("pricing", .vobj [("grand_total", .vnum ⟨5, 100⟩)])]

/-- A single tree-encoded line item with three leaf fields. -/
def treeItem : XmlNode :=
  .mk "item" [] ""
    [.mk "quantity" [] "1" [],
     .mk "unit_price" [] "2.0" [],
     .mk "subtotal" [] "2.0" []]

/-- A tree-encoded receipt: one customer with email `bob`, and a single
`<item>` inside `<items>`. -/
def treeDoc : XmlNode :=
  .mk "receipt" [] ""
    [.mk "customer" [] "" [.mk "email" [] "bob" []],
     .mk "items" [] "" [treeItem]]

/-- The map-encoded document with the same fields, values and order as
`treeDoc`. -/
def mapDoc : JVal :=
  .vobj
    [("customer", .vobj [("email", .vstr "bob")]),
     ("items", .vlist [.vobj [("quantity", .vint 1),
                              ("unit_price", .vnum ⟨2, 1⟩),
                              ("subtotal", .vnum ⟨2, 1⟩)]])]

@[simp]
theorem Emitted.app_mk (e1 w1 e2 w2 : List String) :
    Emitted.app ⟨e1, w1⟩ ⟨e2, w2⟩ = ⟨e1 ++ e2, w1 ++ w2⟩ := rfl

@[simp]
theorem Emitted.app_errors (a b : Emitted) : (a.app b).errors = a.errors ++ b.errors := rfl

@[simp]
theorem Emitted.app_warnings (a b : Emitted) : (a.app b).warnings = a.warnings ++ b.warnings := rfl

@[simp]
theorem EM.bind_eq {α β : Type u} (m : EM α) (f : α → EM β) :
    (m >>= f) = EM.bind m f := rfl

@[simp]
theorem EM.pure_eq {α : Type u} (a : α) :
    (pure a : EM α) = (⟨[], []⟩, Except.ok a) := rfl

@[simp]
theorem EM.bind_ok {α β : Type u} (e : Emitted) (a : α) (f : α → EM β) :
    EM.bind (e, Except.ok a) f = (e.app (f a).1, (f a).2) := rfl

@[simp]
theorem EM.bind_error {α β : Type u} (e : Emitted) (s : String) (f : α → EM β) :
    EM.bind (e, Except.error s) f = (e, Except.error s) := rfl

@[simp]
theorem liftE_eq {α : Type u} (r : Except String α) : liftE r = (⟨[], []⟩, r) := rfl

@[simp]
theorem emitE_eq (m : String) : emitE m = (⟨[m], []⟩, Except.ok ()) := rfl

@[simp]
theorem emitW_eq (m : String) : emitW m = (⟨[], [m]⟩, Except.ok ()) := rfl

/-- Whatever a continuation does, binding after `m` only ever appends to
the errors `m` already emitted. -/
theorem EM.bind_errors_extend {α β : Type u} (m : EM α) (f : α → EM β) :
    ∃ t, (EM.bind m f).1.errors = m.1.errors ++ t := by
  rcases m with ⟨e, r⟩
  cases r with
  | ok a => exact ⟨(f a).1.errors, rfl⟩
  | error s => exact ⟨[], by simp⟩

/-- Rule 1 of the JSON validator on a list of items: one Error below
five items, one Warning otherwise. -/
theorem jsonRule1_spec (xs : List JVal) :
    jsonRule1 (.vlist xs) =
      if xs.length < 5 then
        (⟨["Receipt must contain at least 5 items. Found: " ++ toString xs.length], []⟩,
         Except.ok ())
      else
        (⟨[], ["Item count validation passed: " ++ toString xs.length ++ " items"]⟩,
         Except.ok ()) := by
  unfold jsonRule1
  simp [pyLen]
  split <;> simp

/-- Rule 1 of the XML validator once the `items.item` path resolves to a
list. -/
theorem xmlRule1_spec (xd itemsX : JVal) (ys : List JVal)
    (h1 : pyGetD xd "items" (.vobj []) = .ok itemsX)
    (h2 : pyGetD itemsX "item" (.vlist []) = .ok (.vlist ys)) :
    xmlRule1 xd =
      if ys.length < 5 then
        (⟨["Receipt must contain at least 5 items. Found: " ++ toString ys.length], []⟩,
         Except.ok ())
      else
        (⟨[], ["Item count validation passed: " ++ toString ys.length ++ " items"]⟩,
         Except.ok ()) := by
  unfold xmlRule1
  rw [h1]
  simp [h2, pyLen]
  split <;> simp

/-- The shared Rule 3 under numeric hypotheses: exactly the epsilon
comparison of the two totals decides whether the mismatch Error is
emitted. -/
theorem rule3_spec (d ta pricing gv : JVal) (t g : PyFloat)
    (h1 : pyGetD d "total_amount" (.vint 0) = .ok ta)
    (h2 : pyFloat ta = .ok t)
    (h3 : pyGetD d "pricing" (.vobj []) = .ok pricing)
    (h4 : pyContains "grand_total" pricing = .ok true)
    (h5 : pySubscr pricing "grand_total" = .ok gv)
    (h6 : pyFloat gv = .ok g) :
    rule3TotalMatch d =
      if pfGtB (pfAbs (pfSub t g)) eps01 then
        (⟨["Total amount mismatch. Header: " ++ pyStrOfFloat t ++
           ", Pricing: " ++ pyStrOfFloat g], []⟩, Except.ok ())
      else (⟨[], []⟩, Except.ok ()) := by
  unfold rule3TotalMatch
  rw [h1]
  simp [h2, h3, h4, h5, h6]
  split <;> simp

/-- The JSON per-item check on an item with integer quantity and float
price and subtotal: the three findings are each governed exactly by
their own condition, and the subtotal finding carries the 1-based index
and the expected and found values. -/
theorem jsonItemCheck_spec (i : Nat) (item : JVal) (q : Int) (p s : PyFloat)
    (hq : pyGetD item "quantity" (.vint 0) = .ok (.vint q))
    (hp : pyGetD item "unit_price" (.vint 0) = .ok (.vnum p))
    (hs : pyGetD item "subtotal" (.vint 0) = .ok (.vnum s)) :
    jsonItemCheck i item =
      (⟨(if q ≤ 0 then
           ["Item " ++ toString (i + 1) ++ ": Quantity must be positive integer. Found: " ++
            toString q]
         else []) ++
        (if pfLtB p (pfOfInt 0) then
           ["Item " ++ toString (i + 1) ++ ": Unit price cannot be negative. Found: " ++
            pyStrOfFloat p]
         else []) ++
        (if pfGtB (pfAbs (pfSub s (pfMul (pfOfInt q) p))) eps01 then
           ["Item " ++ toString (i + 1) ++ ": Subtotal calculation error. Expected: " ++
            pyStrOfFloat (pfMul (pfOfInt q) p) ++ ", Found: " ++ pyStrOfFloat s]
         else []), []⟩, Except.ok ()) := by
  unfold jsonItemCheck
  rw [hq]
  simp [hp, hs, pyMul, pySub, pyAbs, numGt, intLike, numLike, pyStr, pyRepr]
  by_cases h1 : q ≤ 0 <;> by_cases h2 : pfLtB p (pfOfInt 0) = true <;>
    by_cases h3 : pfGtB (pfAbs (pfSub s (pfMul (pfOfInt q) p))) eps01 = true <;>
    simp [h1, h2, h3]

/-- When the purchase date is a non-empty string that `fromisoformat`
rejects, Rule 2 of the JSON validator is exactly one Error append. -/
theorem jsonRule2_badDate (now : PyDateTime) (d : JVal) (s : String)
    (hd : pyGetD d "purchase_date" .vnull = .ok (.vstr s))
    (hne : s ≠ "")
    (hp : fromisoformat (replaceZ s) = none) :
    jsonRule2 now d =
      emitE ("Invalid date format: Invalid isoformat string: \x27" ++ replaceZ s ++ "\x27") := by
  unfold jsonRule2
  rw [hd]
  simp [pyTruthy, hne, hp]

/-- With fewer than five (list-encoded) items, the error list of
`validate_business_rules` begins with the item-count Error, whatever
the remaining rules do. -/
theorem brules_errors_cons (now : PyDateTime) (d : JVal) (xs : List JVal)
    (h : pyGetD d "items" (.vlist []) = .ok (.vlist xs))
    (h5 : xs.length < 5) :
    ∃ t, (JSONReceiptValidator.validate_business_rules now d).1.errors =
      ("Receipt must contain at least 5 items. Found: " ++ toString xs.length) :: t := by
  have hcore : ∃ t, (JSONReceiptValidator.rulesCore now d).1.errors =
      ("Receipt must contain at least 5 items. Found: " ++ toString xs.length) :: t := by
    unfold JSONReceiptValidator.rulesCore
    rw [h]
    simp [jsonRule1_spec, if_pos h5]
  rcases hcore with ⟨t, ht⟩
  unfold JSONReceiptValidator.validate_business_rules
  rcases hr : JSONReceiptValidator.rulesCore now d with ⟨e, r⟩
  rw [hr] at ht
  cases r <;> exact ⟨t, ht⟩

/-- A key absent from an association list looks up to `none`. -/
theorem lookup_eq_none_of_not_mem (fs : List (String × JVal)) (k : String)
    (h : ¬ k ∈ fs.map Prod.fst) : fs.lookup k = none := by
  induction fs with
  | nil => rfl
  | cons p t ih =>
    simp only [List.map_cons, List.mem_cons, not_or] at h
    have hb : (k == p.1) = false := beq_eq_false_iff_ne.mpr h.1
    simp [List.lookup, hb, ih h.2]

/-- Inserting child pairs with pairwise-fresh tags just appends them in
order (the list-collecting branch of `insertChild` never fires). -/
theorem insertAll_nodup (ps : List (String × JVal)) :
    ∀ acc : List (String × JVal),
      (acc.map Prod.fst ++ ps.map Prod.fst).Nodup →
      insertAll acc ps = acc ++ ps := by
  induction ps with
  | nil => intro acc _; simp [insertAll]
  | cons p t ih =>
    intro acc hnd
    rcases p with ⟨k, v⟩
    have hsplit := List.nodup_append.mp hnd
    have hk : ¬ k ∈ acc.map Prod.fst := by
      intro hmem
      exact hsplit.2.2 hmem (by simp)
    have hstep : insertChild acc k v = acc ++ [(k, v)] := by
      unfold insertChild
      rw [lookup_eq_none_of_not_mem _ _ hk]
    rw [insertAll, hstep, ih (acc ++ [(k, v)]) (by simpa using hnd)]
    simp

/-- A leaf node used to encode one scalar field of a line item. -/
def mkLeaf (p : String × String) : XmlNode := .mk p.1 [] p.2 []

/-- The dictionary pairs a list of leaf fields normalizes to. -/
def leafPairs (fields : List (String × String)) : List (String × JVal) :=
  fields.map (fun p => (p.1, JVal.vstr (pyStrip p.2)))

/-- A tree-encoded receipt whose `<items>` element has exactly one
`<item>` child consisting of the given leaf fields. -/
def singleItemTree (fields : List (String × String)) : XmlNode :=
  .mk "receipt" [] "" [.mk "items" [] "" [.mk "item" [] "" (fields.map mkLeaf)]]

/-- Leaves with non-blank text normalize to their stripped text, in
order. -/
theorem childPairs_leaves (fields : List (String × String))
    (hne : ∀ p ∈ fields, pyStrip p.2 ≠ "") :
    childPairs (fields.map mkLeaf) = leafPairs fields := by
  induction fields with
  | nil => rfl
  | cons p t ih =>
    have hp := hne p (by simp)
    have ht : ∀ q ∈ t, pyStrip q.2 ≠ "" := fun q hq => hne q (by simp [hq])
    simp [childPairs, mkLeaf, leafPairs, XmlNode.tag, xml_to_dict, hp]
    have := ih ht
    simpa [leafPairs] using this

/-- A childless, attributeless, textless wrapper element normalizes to
a one-entry dict around its single child. -/
theorem xml_to_dict_wrap (tg : String) (c : XmlNode) :
    xml_to_dict (.mk tg [] "" [c]) = .vobj [(c.tag, xml_to_dict c)] := by
  have h0 : pyStrip "" = "" := rfl
  conv_lhs => rw [xml_to_dict]
  simp [h0, childPairs, insertAll, insertChild, List.lookup]

/-- Normalizing a receipt whose `<items>` holds exactly one `<item>`
stores that item as a single map, not a one-element list. -/
theorem xml_to_dict_singleItem (fields : List (String × String))
    (hnd : (fields.map Prod.fst).Nodup)
    (hne : ∀ p ∈ fields, pyStrip p.2 ≠ "") :
    xml_to_dict (singleItemTree fields) =
      .vobj [("items", .vobj [("item", .vobj (leafPairs fields))])] := by
  have h0 : pyStrip "" = "" := rfl
  have hitem : xml_to_dict (.mk "item" [] "" (fields.map mkLeaf)) =
      .vobj (leafPairs fields) := by
    conv_lhs => rw [xml_to_dict]
    simp [h0, childPairs_leaves fields hne]
    exact insertAll_nodup (leafPairs fields) []
      (by simpa [leafPairs, List.map_map, Function.comp] using hnd)
  rw [singleItemTree, xml_to_dict_wrap, xml_to_dict_wrap, hitem]
  rfl

/-- C6: evaluation of the source's credit-card rule at the claim's
inputs.  With `payment_method = "Credit Card"` and
`card_number_last_four` absent, the code emits the 4-digit Error (with
an empty "Found" value) in addition to the presence Error, because the
`not` in `card_number and not card_number.isdigit() or
len(card_number) != 4` binds only the digit test — the precedence slip
spec §9 documents; so the 4-digit Error is not emitted "exactly when
the present value is not four digits".  The `"12"` scenario of the
claim does emit exactly the 4-digit Error. -/
theorem c6_card_four_digit_eval :
    (jsonRule7 docCardMissing).1.errors =
      ["Credit Card payment requires card_type and card_number_last_four",
       "Card number last four must be 4 digits. Found: "] ∧
    (jsonRule7 docCardMissing).2 = Except.ok () ∧
    (jsonRule7 docCard12).1.errors =
      ["Card number last four must be 4 digits. Found: 12"] ∧
    (jsonRule7 docCard12).2 = Except.ok () :=
  ⟨rfl, rfl, rfl, rfl⟩

/-- C1 counterexample: on a document with zero business-rule and
data-type Error findings, merely supplying a schema file while the
`jsonschema` library is unavailable appends a message to the shared
`self.errors` list, and `overall_valid` comes out `false` — so the
unavailability of the external schema check is recorded in the same
error list and does flip the verdict, contrary to the claim. -/
theorem c1_schema_unavailable_counterexample :
    Except.map (fun r => (r.errors, r.warnings, r.overall_valid, r.schema_valid))
        (JSONReceiptValidator.generate_report envUnavailable now0 docClean ⟨[], []⟩) =
      Except.ok (["JSON Schema validation requires jsonschema library"],
                 ["Item count validation passed: 6 items"], false, some false) ∧
    (JSONReceiptValidator.validate_business_rules now0 docClean).1.errors = [] ∧
    (JSONReceiptValidator.validate_data_types docClean).1.errors = [] :=
  ⟨rfl, rfl, rfl⟩

/-- C3 counterexample: on a well-formed document whose `total_amount`
is the non-numeric string `"abc"`, `float()` raises inside Rule 3,
the exception escapes `generate_report`, and no verdict is produced —
the rule neither emits an Error finding for its check nor lets the
later rules run, contrary to the claim. -/
theorem c3_nonnumeric_total_counterexample :
    JSONReceiptValidator.generate_report envNoSchema now0 docBadTotal ⟨[], []⟩ =
      Except.error "ValueError: could not convert string to float: abc" := rfl

/-- C2 counterexample: a tree-encoded receipt and the map-encoded
document with the same fields, values and order.  Normalization nests
the single item under `items.item` as a map while the map encoding
keeps a list, and the two rule evaluations produce different ordered
finding lists (the tree side counts the item's 3 fields; the map side
counts 1 item and additionally runs the email, signature and
required-field rules). -/
theorem c2_encoding_equivalence_counterexample :
    pyGetD (xml_to_dict treeDoc) "items" .vnull =
      .ok (.vobj [("item", .vobj [("quantity", .vstr "1"), ("unit_price", .vstr "2.0"),
                                  ("subtotal", .vstr "2.0")])]) ∧
    pyGetD mapDoc "items" .vnull =
      .ok (.vlist [.vobj [("quantity", .vint 1), ("unit_price", .vnum ⟨2, 1⟩),
                          ("subtotal", .vnum ⟨2, 1⟩)]]) ∧
    (XMLReceiptValidator.validate_business_rules now0 (xml_to_dict treeDoc)).1.errors ≠
      (JSONReceiptValidator.validate_business_rules now0 mapDoc).1.errors ∧
    (XMLReceiptValidator.validate_business_rules now0 (xml_to_dict treeDoc)).1.errors =
      ["Receipt must contain at least 5 items. Found: 3"] ∧
    (JSONReceiptValidator.validate_business_rules now0 mapDoc).1.errors =
      ["Receipt must contain at least 5 items. Found: 1",
       "Invalid email format: bob",
       "Digital signature must include algorithm and signature",
       "Required field missing: receipt_id",
       "Required field missing: purchase_date",
       "Required field missing: store_name",
       "Required field missing: store",
       "Required field missing: payment",
       "Required field missing: transaction",
       "Required field missing: footer"] :=
  ⟨rfl, rfl, by decide, rfl, rfl⟩

/-- The cross-multiplication comparison used for floats agrees with the
rational ordering of the represented values (denominators positive). -/
theorem pfLtB_iff_toRat (a b : PyFloat) (ha : 0 < a.den) (hb : 0 < b.den) :
    pfLtB a b = true ↔ a.toRat < b.toRat := by
  have ha' : (0 : Rat) < (a.den : Rat) := by exact_mod_cast ha
  have hb' : (0 : Rat) < (b.den : Rat) := by exact_mod_cast hb
  unfold pfLtB PyFloat.toRat
  rw [div_lt_div_iff₀ ha' hb', decide_eq_true_eq]
  constructor <;> intro h
  · exact_mod_cast h
  · exact_mod_cast h

/-- Whenever `generate_report` returns a report, its error and warning
lists are the instance state followed by the schema-phase, rule-phase
and type-phase emissions in call order, and `overall_valid` is
emptiness of that error list. -/
theorem report_errors_shape (env : JSONReceiptValidator.SchemaEnv) (now : PyDateTime)
    (d : JVal) (st : Emitted) (r : JSONReceiptValidator.Report)
    (h : JSONReceiptValidator.generate_report env now d st = .ok r) :
    r.errors = st.errors ++
      (if env.hasSchemaFile then (JSONReceiptValidator.validate_schema env d).1.errors else []) ++
      (JSONReceiptValidator.validate_business_rules now d).1.errors ++
      (JSONReceiptValidator.validate_data_types d).1.errors ∧
    r.warnings = st.warnings ++
      (if env.hasSchemaFile then (JSONReceiptValidator.validate_schema env d).1.warnings else []) ++
      (JSONReceiptValidator.validate_business_rules now d).1.warnings ++
      (JSONReceiptValidator.validate_data_types d).1.warnings ∧
    r.overall_valid = r.errors.isEmpty := by
  unfold JSONReceiptValidator.generate_report at h
  rcases hb : JSONReceiptValidator.validate_business_rules now d with ⟨be, rb⟩
  rw [hb] at h
  cases rb with
  | error e => cases henv : env.hasSchemaFile <;> rw [henv] at h <;> simp at h
  | ok brv =>
    rcases hd2 : JSONReceiptValidator.validate_data_types d with ⟨de, rd⟩
    rw [hd2] at h
    cases rd with
    | error e => cases henv : env.hasSchemaFile <;> rw [henv] at h <;> simp at h
    | ok dtv =>
      rcases ht : JSONReceiptValidator.calculate_totals d with e | tot <;> rw [ht] at h
      · cases henv : env.hasSchemaFile <;> rw [henv] at h <;> simp at h
      · cases henv : env.hasSchemaFile <;> rw [henv] at h <;>
          simp only [Except.ok.injEq] at h <;> subst h <;> simp

/-- C1, corrected: `overall_valid` is emptiness of the single shared
error list, so Warnings never affect it; but that list also receives
the schema-phase messages, so an unavailable (or failing) external
schema check does flip `overall_valid` to false whenever a schema file
was supplied — the schema result is not kept out of the Error
findings as the claim states. -/
theorem c1_overall_valid_amended (env : JSONReceiptValidator.SchemaEnv)
    (now : PyDateTime) (d : JVal) (st : Emitted) (r : JSONReceiptValidator.Report)
    (h : JSONReceiptValidator.generate_report env now d st = .ok r) :
    (r.overall_valid = true ↔ r.errors = []) ∧
    (env.hasSchemaFile = true → env.jsonschemaAvailable = false →
      r.overall_valid = false) := by
  obtain ⟨he, _, hov⟩ := report_errors_shape env now d st r h
  constructor
  · rw [hov, List.isEmpty_iff]
  · intro hf ha
    rw [hov, he]
    simp [hf, JSONReceiptValidator.validate_schema, ha]

/-- A clean receipt with only two items. -/
def docTwoItems : JVal :=
  .vobj
    [("receipt_id", .vstr "RCPT_1"),
     ("purchase_date", .vstr "2024-01-15"),
     ("store_name", .vstr "S"),
     ("customer", .vobj []),
     ("store", .vstr "Main"),
     ("items", .vlist [itemOk, itemOk]),
     ("payment", .vobj []),
     ("transaction", .vstr "T1"),
     ("footer", .vstr "F"),
     ("total_amount", .vnum ⟨4, 1⟩),
     ("digital_signature", .vobj [("algorithm", .vstr "RSA"), ("signature", .vstr "sig")])]

/-- The report of `docClean` with a schema file but no `jsonschema`. -/
def rUnavail : JSONReceiptValidator.Report :=
  { schema_valid := some false, business_rules_valid := true, data_types_valid := true,
    totals := ⟨.vnum ⟨12, 1⟩, .vint 0, 6⟩,
    errors := ["JSON Schema validation requires jsonschema library"],
    warnings := ["Item count validation passed: 6 items"],
    overall_valid := false }

/-- Witness for the amended C1 at a concrete run. -/
theorem c1_overall_valid_amended_witness :
    JSONReceiptValidator.generate_report envUnavailable now0 docClean ⟨[], []⟩ =
      .ok rUnavail ∧
    ((rUnavail.overall_valid = true ↔ rUnavail.errors = []) ∧
     (envUnavailable.hasSchemaFile = true → envUnavailable.jsonschemaAvailable = false →
       rUnavail.overall_valid = false)) :=
  ⟨rfl, c1_overall_valid_amended envUnavailable now0 docClean ⟨[], []⟩ rUnavail rfl⟩

/-- C4: documents whose `items` value is a list with fewer than five
entries get exactly one item-count Error (and, whenever the run
completes into a report, `overall_valid` is false); with five or more,
exactly one Warning noting the count and no Error.  The same holds for
the XML validator's rule once `items.item` resolves to a list. -/
theorem c4_min_item_count (d : JVal) (xs : List JVal)
    (h : pyGetD d "items" (.vlist []) = .ok (.vlist xs)) :
    (xs.length < 5 →
      (jsonRule1 (.vlist xs)).1 =
        ⟨["Receipt must contain at least 5 items. Found: " ++ toString xs.length], []⟩ ∧
      ∀ (env : JSONReceiptValidator.SchemaEnv) (now : PyDateTime) (st : Emitted)
        (r : JSONReceiptValidator.Report),
        JSONReceiptValidator.generate_report env now d st = .ok r →
        r.overall_valid = false) ∧
    (5 ≤ xs.length →
      (jsonRule1 (.vlist xs)).1 =
        ⟨[], ["Item count validation passed: " ++ toString xs.length ++ " items"]⟩) ∧
    (∀ xd itemsX : JVal,
      pyGetD xd "items" (.vobj []) = .ok itemsX →
      pyGetD itemsX "item" (.vlist []) = .ok (.vlist xs) →
      xs.length < 5 →
      (xmlRule1 xd).1 =
        ⟨["Receipt must contain at least 5 items. Found: " ++ toString xs.length], []⟩) := by
  refine ⟨fun h5 => ⟨?_, ?_⟩, fun h5 => ?_, fun xd itemsX h1 h2 h5 => ?_⟩
  · rw [jsonRule1_spec, if_pos h5]
  · intro env now st r hrep
    obtain ⟨he, _, hov⟩ := report_errors_shape env now d st r hrep
    obtain ⟨t, ht⟩ := brules_errors_cons now d xs h h5
    rw [hov, he, ht]
    simp
  · rw [jsonRule1_spec, if_neg (by omega)]
  · rw [xmlRule1_spec xd itemsX xs h1 h2, if_pos h5]

/-- The completed report of `docTwoItems`. -/
def rTwoItems : JSONReceiptValidator.Report :=
  { schema_valid := none, business_rules_valid := false, data_types_valid := true,
    totals := ⟨.vnum ⟨4, 1⟩, .vint 0, 2⟩,
    errors := ["Receipt must contain at least 5 items. Found: 2"],
    warnings := [],
    overall_valid := false }

/-- Witness for C4 at a concrete two-item document. -/
theorem c4_min_item_count_witness :
    pyGetD docTwoItems "items" (.vlist []) = .ok (.vlist [itemOk, itemOk]) ∧
    JSONReceiptValidator.generate_report envNoSchema now0 docTwoItems ⟨[], []⟩ =
      .ok rTwoItems ∧
    (jsonRule1 (.vlist [itemOk, itemOk])).1 =
      ⟨["Receipt must contain at least 5 items. Found: 2"], []⟩ ∧
    rTwoItems.overall_valid = false :=
  ⟨rfl, rfl,
   ((c4_min_item_count docTwoItems [itemOk, itemOk] rfl).1 (by decide)).1,
   ((c4_min_item_count docTwoItems [itemOk, itemOk] rfl).1 (by decide)).2
     envNoSchema now0 ⟨[], []⟩ rTwoItems rfl⟩

/-- C5: per-item subtotal arithmetic.  Under the epsilon the item check
emits no subtotal finding; over it, it emits exactly one, whose message
carries the 1-based index, the expected product and the found value. -/
theorem c5_subtotal_arithmetic (i : Nat) (item : JVal) (q : Int) (p s : PyFloat)
    (hq : pyGetD item "quantity" (.vint 0) = .ok (.vint q))
    (hp : pyGetD item "unit_price" (.vint 0) = .ok (.vnum p))
    (hs : pyGetD item "subtotal" (.vint 0) = .ok (.vnum s)) :
    (pfGtB (pfAbs (pfSub s (pfMul (pfOfInt q) p))) eps01 = false →
      (jsonItemCheck i item).1.errors =
        (if q ≤ 0 then
           ["Item " ++ toString (i + 1) ++ ": Quantity must be positive integer. Found: " ++
            toString q]
         else []) ++
        (if pfLtB p (pfOfInt 0) then
           ["Item " ++ toString (i + 1) ++ ": Unit price cannot be negative. Found: " ++
            pyStrOfFloat p]
         else [])) ∧
    (pfGtB (pfAbs (pfSub s (pfMul (pfOfInt q) p))) eps01 = true →
      (jsonItemCheck i item).1.errors =
        (if q ≤ 0 then
           ["Item " ++ toString (i + 1) ++ ": Quantity must be positive integer. Found: " ++
            toString q]
         else []) ++
        (if pfLtB p (pfOfInt 0) then
           ["Item " ++ toString (i + 1) ++ ": Unit price cannot be negative. Found: " ++
            pyStrOfFloat p]
         else []) ++
        ["Item " ++ toString (i + 1) ++ ": Subtotal calculation error. Expected: " ++
         pyStrOfFloat (pfMul (pfOfInt q) p) ++ ", Found: " ++ pyStrOfFloat s]) := by
  have hspec := jsonItemCheck_spec i item q p s hq hp hs
  constructor <;> intro hgt <;> rw [hspec] <;> simp [hgt]

/-- Witness for C5: quantity 2, unit price 3.0, subtotal 6.5 — one
subtotal Error naming expected 6.0 and found 6.5 at item 1. -/
theorem c5_subtotal_arithmetic_witness :
    pyGetD (.vobj [("quantity", .vint 2), ("unit_price", .vnum ⟨3, 1⟩),
                   ("subtotal", .vnum ⟨65, 10⟩)]) "quantity" (.vint 0) = .ok (.vint 2) ∧
    pfGtB (pfAbs (pfSub ⟨65, 10⟩ (pfMul (pfOfInt 2) ⟨3, 1⟩))) eps01 = true ∧
    (jsonItemCheck 0 (.vobj [("quantity", .vint 2), ("unit_price", .vnum ⟨3, 1⟩),
                             ("subtotal", .vnum ⟨65, 10⟩)])).1.errors =
      ["Item 1: Subtotal calculation error. Expected: 6.0, Found: 6.5"] := by
  refine ⟨rfl, rfl, ?_⟩
  have := (c5_subtotal_arithmetic 0
    (.vobj [("quantity", .vint 2), ("unit_price", .vnum ⟨3, 1⟩), ("subtotal", .vnum ⟨65, 10⟩)])
    2 ⟨3, 1⟩ ⟨65, 10⟩ rfl rfl rfl).2 rfl
  simpa using this

/-- C7: whenever `pricing.grand_total` is present and both totals
coerce to numbers, the mismatch Error (carrying both rendered values)
is emitted exactly when the difference exceeds the 0.01 epsilon; and at
scenario A (header 100.00, grand total 100.02) the Error is emitted and
`overall_valid` is false. -/
theorem c7_total_mismatch (d ta pricing gv : JVal) (t g : PyFloat)
    (h1 : pyGetD d "total_amount" (.vint 0) = .ok ta)
    (h2 : pyFloat ta = .ok t)
    (h3 : pyGetD d "pricing" (.vobj []) = .ok pricing)
    (h4 : pyContains "grand_total" pricing = .ok true)
    (h5 : pySubscr pricing "grand_total" = .ok gv)
    (h6 : pyFloat gv = .ok g) :
    ((rule3TotalMatch d).1.errors =
      if pfGtB (pfAbs (pfSub t g)) eps01 then
        ["Total amount mismatch. Header: " ++ pyStrOfFloat t ++ ", Pricing: " ++ pyStrOfFloat g]
      else []) ∧
    Except.map (fun r => (r.errors, r.overall_valid))
        (JSONReceiptValidator.generate_report envNoSchema now0 docMismatch ⟨[], []⟩) =
      Except.ok (["Total amount mismatch. Header: 100.0, Pricing: 100.02"], false) := by
  refine ⟨?_, rfl⟩
  rw [rule3_spec d ta pricing gv t g h1 h2 h3 h4 h5 h6]
  split <;> rfl

/-- Witness for C7 at scenario A itself. -/
theorem c7_total_mismatch_witness :
    pyGetD docMismatch "total_amount" (.vint 0) = .ok (.vnum ⟨100, 1⟩) ∧
    pySubscr (.vobj [("grand_total", .vnum ⟨10002, 100⟩)]) "grand_total" =
      .ok (.vnum ⟨10002, 100⟩) ∧
    (rule3TotalMatch docMismatch).1.errors =
      ["Total amount mismatch. Header: 100.0, Pricing: 100.02"] := by
  refine ⟨rfl, rfl, ?_⟩
  have := (c7_total_mismatch docMismatch (.vnum ⟨100, 1⟩)
    (.vobj [("grand_total", .vnum ⟨10002, 100⟩)]) (.vnum ⟨10002, 100⟩)
    ⟨100, 1⟩ ⟨10002, 100⟩ rfl rfl rfl rfl rfl rfl).1
  simpa using this

/-- C10: with `total_amount` absent and `pricing.grand_total` present,
Rule 3 compares the grand total against the default 0 and emits the
mismatch Error (with `Header: 0.0`) exactly when `|grand_total|`
exceeds the epsilon. -/
theorem c10_missing_total_defaults_zero (fs : List (String × JVal)) (pricing gv : JVal)
    (g : PyFloat)
    (h0 : fs.lookup "total_amount" = none)
    (h3 : pyGetD (.vobj fs) "pricing" (.vobj []) = .ok pricing)
    (h4 : pyContains "grand_total" pricing = .ok true)
    (h5 : pySubscr pricing "grand_total" = .ok gv)
    (h6 : pyFloat gv = .ok g) :
    (rule3TotalMatch (.vobj fs)).1.errors =
      if pfGtB (pfAbs g) eps01 then
        ["Total amount mismatch. Header: 0.0, Pricing: " ++ pyStrOfFloat g]
      else [] := by
  have h1 : pyGetD (.vobj fs) "total_amount" (.vint 0) = .ok (.vint 0) := by
    simp [pyGetD, h0]
  have habs : pfAbs (pfSub (pfOfInt 0) g) = pfAbs g := by
    cases g with
    | mk n dn => simp [pfSub, pfAbs, pfOfInt]
  rw [rule3_spec (.vobj fs) (.vint 0) pricing gv (pfOfInt 0) g h1 rfl h3 h4 h5 h6, habs]
  split <;> rfl

/-- Witness for C10 at a document with only `pricing.grand_total =
0.05`. -/
theorem c10_missing_total_defaults_zero_witness :
    ([("items", JVal.vlist [itemOk, itemOk, itemOk, itemOk, itemOk]),
      ("pricing", JVal.vobj [("grand_total", JVal.vnum ⟨5, 100⟩)])].lookup "total_amount" =
      none) ∧
    pfGtB (pfAbs (⟨5, 100⟩ : PyFloat)) eps01 = true ∧
    (rule3TotalMatch docNoHeaderTotal).1.errors =
      ["Total amount mismatch. Header: 0.0, Pricing: 0.05"] := by
  refine ⟨rfl, rfl, ?_⟩
  have := c10_missing_total_defaults_zero
    [("items", JVal.vlist [itemOk, itemOk, itemOk, itemOk, itemOk]),
     ("pricing", JVal.vobj [("grand_total", JVal.vnum ⟨5, 100⟩)])]
    (.vobj [("grand_total", .vnum ⟨5, 100⟩)]) (.vnum ⟨5, 100⟩) ⟨5, 100⟩
    rfl rfl rfl rfl rfl
  simpa using this

/-- C3, amended: the date rule does have error isolation — an
unparseable purchase date contributes exactly one Error append and
every subsequent rule still runs on the unchanged document (the whole
rule sequence equals the same sequence with Rule 2 replaced by that
single append). -/
theorem c3_date_error_isolated (now : PyDateTime) (d : JVal) (s : String)
    (hd : pyGetD d "purchase_date" .vnull = .ok (.vstr s))
    (hne : s ≠ "")
    (hp : fromisoformat (replaceZ s) = none) :
    JSONReceiptValidator.rulesCore now d =
      (do
        let items ← liftE (pyGetD d "items" (.vlist []))
        jsonRule1 items
        emitE ("Invalid date format: Invalid isoformat string: \x27" ++ replaceZ s ++ "\x27")
        rule3TotalMatch d
        jsonRule4 items
        let customer ← liftE (pyGetD d "customer" (.vobj []))
        loyaltyRule customer
        jsonRule6 customer
        jsonRule7 d
        signatureRule d
        jsonRule9 items d
        jsonRule10 d) := by
  have h2 := jsonRule2_badDate now d s hd hne hp
  unfold JSONReceiptValidator.rulesCore
  simp only [h2]

/-- Witness for the amended C3 at a concrete document with an
unparseable date. -/
theorem c3_date_error_isolated_witness :
    pyGetD docBadDate "purchase_date" .vnull = .ok (.vstr "not-a-date") ∧
    fromisoformat (replaceZ "not-a-date") = none ∧
    JSONReceiptValidator.rulesCore now0 docBadDate =
      (do
        let items ← liftE (pyGetD docBadDate "items" (.vlist []))
        jsonRule1 items
        emitE ("Invalid date format: Invalid isoformat string: \x27" ++
               replaceZ "not-a-date" ++ "\x27")
        rule3TotalMatch docBadDate
        jsonRule4 items
        let customer ← liftE (pyGetD docBadDate "customer" (.vobj []))
        loyaltyRule customer
        jsonRule6 customer
        jsonRule7 docBadDate
        signatureRule docBadDate
        jsonRule9 items docBadDate
        jsonRule10 docBadDate) :=
  ⟨rfl, rfl, c3_date_error_isolated now0 docBadDate "not-a-date" rfl (by decide) rfl⟩

/-- C2, amended: the rules the two validators share do agree.  The
item-count rule emits identical findings for encodings whose item
sequences have equal length, and the header/pricing total rule — the
one check that is textually identical in both sources — produces the
very same computation on any two documents whose relevant fields
coerce to the same numbers. -/
theorem c2_shared_rules_agreement :
    (∀ (dX itemsX : JVal) (xs ys : List JVal),
      pyGetD dX "items" (.vobj []) = .ok itemsX →
      pyGetD itemsX "item" (.vlist []) = .ok (.vlist ys) →
      xs.length = ys.length →
      (jsonRule1 (.vlist xs)).1 = (xmlRule1 dX).1) ∧
    (∀ (dJ dX taJ taX pJ pX gvJ gvX : JVal) (t g : PyFloat),
      pyGetD dJ "total_amount" (.vint 0) = .ok taJ → pyFloat taJ = .ok t →
      pyGetD dX "total_amount" (.vint 0) = .ok taX → pyFloat taX = .ok t →
      pyGetD dJ "pricing" (.vobj []) = .ok pJ → pyContains "grand_total" pJ = .ok true →
      pySubscr pJ "grand_total" = .ok gvJ → pyFloat gvJ = .ok g →
      pyGetD dX "pricing" (.vobj []) = .ok pX → pyContains "grand_total" pX = .ok true →
      pySubscr pX "grand_total" = .ok gvX → pyFloat gvX = .ok g →
      rule3TotalMatch dJ = rule3TotalMatch dX) := by
  constructor
  · intro dX itemsX xs ys hx1 hx2 hlen
    rw [jsonRule1_spec, xmlRule1_spec dX itemsX ys hx1 hx2, hlen]
  · intro dJ dX taJ taX pJ pX gvJ gvX t g hj1 hj2 hx1 hx2 hj3 hj4 hj5 hj6 hx3 hx4 hx5 hx6
    rw [rule3_spec dJ taJ pJ gvJ t g hj1 hj2 hj3 hj4 hj5 hj6,
        rule3_spec dX taX pX gvX t g hx1 hx2 hx3 hx4 hx5 hx6]

/-- A map-encoded `items.item` list used by the C2 witness. -/
def xdTwo : JVal := .vobj [("items", .vobj [("item", .vlist [itemOk, itemOk])])]

/-- Witness for the amended C2: two-item encodings agree on the
item-count finding, and scenario A's document agrees with itself on
the shared total rule. -/
theorem c2_shared_rules_agreement_witness :
    pyGetD xdTwo "items" (.vobj []) = .ok (.vobj [("item", .vlist [itemOk, itemOk])]) ∧
    (jsonRule1 (.vlist [itemOk, itemOk])).1 = (xmlRule1 xdTwo).1 ∧
    rule3TotalMatch docMismatch = rule3TotalMatch docMismatch := by
  refine ⟨rfl, ?_, ?_⟩
  · exact (c2_shared_rules_agreement.1 xdTwo (.vobj [("item", .vlist [itemOk, itemOk])])
      [itemOk, itemOk] [itemOk, itemOk] rfl rfl rfl)
  · exact (c2_shared_rules_agreement.2 docMismatch docMismatch
      (.vnum ⟨100, 1⟩) (.vnum ⟨100, 1⟩)
      (.vobj [("grand_total", .vnum ⟨10002, 100⟩)]) (.vobj [("grand_total", .vnum ⟨10002, 100⟩)])
      (.vnum ⟨10002, 100⟩) (.vnum ⟨10002, 100⟩) ⟨100, 1⟩ ⟨10002, 100⟩
      rfl rfl rfl rfl rfl rfl rfl rfl rfl rfl rfl rfl)

/-- C8: the findings a run of `generate_report` produces depend only on
the environment, the clock and the document — a run from instance state
`st` yields exactly `st`'s lists followed by the findings of a fresh
run.  In particular two fresh runs on the same CanonicalDocument yield
identical ordered finding lists. -/
theorem c8_run_determinism (env : JSONReceiptValidator.SchemaEnv) (now : PyDateTime)
    (d : JVal) (st : Emitted) (r r0 : JSONReceiptValidator.Report)
    (h : JSONReceiptValidator.generate_report env now d st = .ok r)
    (h0 : JSONReceiptValidator.generate_report env now d ⟨[], []⟩ = .ok r0) :
    r.errors = st.errors ++ r0.errors ∧ r.warnings = st.warnings ++ r0.warnings := by
  obtain ⟨he, hw, _⟩ := report_errors_shape env now d st r h
  obtain ⟨he0, hw0, _⟩ := report_errors_shape env now d ⟨[], []⟩ r0 h0
  rw [he, hw, he0, hw0]
  simp

/-- The report of a fresh clean run. -/
def rFresh : JSONReceiptValidator.Report :=
  { schema_valid := none, business_rules_valid := true, data_types_valid := true,
    totals := ⟨.vnum ⟨12, 1⟩, .vint 0, 6⟩,
    errors := [],
    warnings := ["Item count validation passed: 6 items"],
    overall_valid := true }

/-- The report of the same run started from non-empty instance state. -/
def rPrev : JSONReceiptValidator.Report :=
  { schema_valid := none, business_rules_valid := true, data_types_valid := true,
    totals := ⟨.vnum ⟨12, 1⟩, .vint 0, 6⟩,
    errors := ["prev"],
    warnings := ["pw", "Item count validation passed: 6 items"],
    overall_valid := false }

/-- Witness for C8 at a concrete pair of runs. -/
theorem c8_run_determinism_witness :
    JSONReceiptValidator.generate_report envNoSchema now0 docClean ⟨["prev"], ["pw"]⟩ =
      .ok rPrev ∧
    JSONReceiptValidator.generate_report envNoSchema now0 docClean ⟨[], []⟩ = .ok rFresh ∧
    rPrev.errors = ["prev"] ++ rFresh.errors ∧
    rPrev.warnings = ["pw"] ++ rFresh.warnings :=
  ⟨rfl, rfl,
   (c8_run_determinism envNoSchema now0 docClean ⟨["prev"], ["pw"]⟩ rPrev rFresh rfl rfl).1,
   (c8_run_determinism envNoSchema now0 docClean ⟨["prev"], ["pw"]⟩ rPrev rFresh rfl rfl).2⟩

/-- C9: a tree-encoded receipt with exactly one `<item>` child under
`<items>` normalizes that child to a single map, and the XML
item-count rule then counts the item's fields (the length of that
map) rather than one item. -/
theorem c9_single_item_counts_fields (fields : List (String × String))
    (hnd : (fields.map Prod.fst).Nodup)
    (hne : ∀ p ∈ fields, pyStrip p.2 ≠ "") :
    xml_to_dict (singleItemTree fields) =
      .vobj [("items", .vobj [("item", .vobj (leafPairs fields))])] ∧
    (xmlRule1 (xml_to_dict (singleItemTree fields))).1 =
      (if fields.length < 5 then
        ⟨["Receipt must contain at least 5 items. Found: " ++ toString fields.length], []⟩
       else
        ⟨[], ["Item count validation passed: " ++ toString fields.length ++ " items"]⟩) := by
  have hx := xml_to_dict_singleItem fields hnd hne
  refine ⟨hx, ?_⟩
  rw [hx]
  unfold xmlRule1
  simp only [pyGetD, List.lookup]
  simp [pyLen, leafPairs]
  split <;> simp

/-- Witness for C9: a single three-field item is counted as 3, and the
count Error reports 3 even though the document has one item. -/
theorem c9_single_item_counts_fields_witness :
    ([("quantity", "1"), ("unit_price", "2.0"), ("subtotal", "2.0")].map
        (Prod.fst (β := String))).Nodup ∧
    (xmlRule1 (xml_to_dict (singleItemTree
        [("quantity", "1"), ("unit_price", "2.0"), ("subtotal", "2.0")]))).1 =
      ⟨["Receipt must contain at least 5 items. Found: 3"], []⟩ := by
  refine ⟨by decide, ?_⟩
  have := (c9_single_item_counts_fields
    [("quantity", "1"), ("unit_price", "2.0"), ("subtotal", "2.0")]
    (by decide) (by intro p hp; fin_cases hp <;> decide)).2
  simpa using this
